import Mathlib

/-!
Shallow embedding of `utils_emacs.py` from the org-roam-canvas repository.

The module shells out to `emacsclient`, retrieves results through a
temporary file, and parses a small line-oriented text protocol.  Pure
parsing code is translated to Lean functions; the subprocess and the
temporary file are modelled by an explicit environment (a function from
the command line to the observed subprocess result and the bytes the
evaluated snippet wrote into the temporary file); Python exceptions are
modelled with `Except`; the `threading.Lock` serialisation is modelled
as a step relation on a system state further below.
-/

deriving instance DecidableEq for Except

/-- Embedding of `fastapi.HTTPException(status_code=..., detail=...)`. -/
structure HTTPExc where
  status_code : Nat
  detail : String
deriving DecidableEq, Repr

/-- The exceptions the module can raise: `HTTPException`, Python's
`IndexError` (from an out-of-range `lines[i]` subscript) and
`UnicodeDecodeError` (from `bytes.decode("utf-8")` on invalid UTF-8). -/
inductive PyErr where
  | httpException (e : HTTPExc)
  | indexError
  | unicodeDecodeError
deriving DecidableEq, Repr

/-- `HTTPException(status_code=404, detail="No node selected")`, raised by
`select_node` — the spec's `NodeNotFoundError`. -/
def NodeNotFoundError : HTTPExc := ⟨404, "No node selected"⟩

/-- `HTTPException(status_code=404, detail="No node found")`, raised by
`get_or_node_details` — the spec's `NodeDetailsError`. -/
def NodeDetailsError : HTTPExc := ⟨404, "No node found"⟩

/-- `HTTPException(status_code=404, detail=ret.stderr)`, raised by
`ask_emacs` — the spec's `EditorInvocationError`. -/
def EditorInvocationError (stderr : String) : HTTPExc := ⟨404, stderr⟩

/-- Result record of `select_node`: the dict `{"id", "title", "file"}`. -/
structure NodeRef where
  id : String
  title : String
  file : String
deriving DecidableEq, Repr

/-- Result record of `get_or_node_details`: the dict `{"title", "file", "html"}`. -/
structure NodeDetail where
  title : String
  file : String
  html : String
deriving DecidableEq, Repr

/-- Splitting a character list on a separator character, keeping empty
pieces, as Python's `str.split` does for a one-character separator. -/
def splitOnChar (sep : Char) : List Char → List (List Char)
  | [] => [[]]
  | x :: xs =>
    match splitOnChar sep xs with
    | [] => [[]]
    | y :: ys => if x = sep then [] :: y :: ys else (x :: y) :: ys

/-- Embedding of Python `output.split("\n")` (line 102 / line 157). -/
def pySplitNl (s : String) : List String :=
  (splitOnChar '\n' s.data).map String.mk

/-- Embedding of Python `"\n".join(lines)` (line 165). -/
def joinNl (lines : List String) : String :=
  String.intercalate "\n" lines

/-- Strips a literal character-list prefix, returning the remainder. -/
def stripLit : List Char → List Char → Option (List Char)
  | [], s => some s
  | _ :: _, [] => none
  | p :: ps, c :: cs => if p = c then stripLit ps cs else none

/-- Embedding of Python `re.match(pre + "(.+)", s)` for a literal `pre`
(the module's patterns `id:(.+)`, `title:(.+)`, `file:(.+)`): the match
is anchored at the start, `.` matches any character except a newline and
`(.+)` greedily captures at least one such character; the result is the
captured group. -/
def reMatchGroup (pre s : String) : Option String :=
  match stripLit pre.data s.data with
  | none => none
  | some rest =>
    let grp := rest.takeWhile (fun c => c ≠ '\n')
    if grp.isEmpty then none else some (String.mk grp)

/-- Embedding of the Python subscript `l[i]` on a list of lines: raises
`IndexError` when `i` is out of range. -/
def pyIndex (l : List String) (i : Nat) : Except PyErr String :=
  match l.get? i with
  | some x => .ok x
  | none => .error .indexError

/-- Embedding of `select_node`'s parsing of the `ask_emacs` output
(lines 101–115 of `utils_emacs.py`): positional matches of `id:(.+)`,
`title:(.+)`, `file:(.+)` against `lines[0]`, `lines[1]`, `lines[2]`,
each subsequent subscript only evaluated when the previous pattern
matched; if any pattern fails, `output_dict` stays `None` and
`HTTPException(404, "No node selected")` is raised. -/
def selectNodeBody (output : String) : Except PyErr NodeRef :=
  let lines := pySplitNl output
  match pyIndex lines 0 with
  | .error e => .error e
  | .ok l0 =>
    match reMatchGroup "id:" l0 with
    | none => .error (.httpException NodeNotFoundError)
    | some i =>
      match pyIndex lines 1 with
      | .error e => .error e
      | .ok l1 =>
        match reMatchGroup "title:" l1 with
        | none => .error (.httpException NodeNotFoundError)
        | some t =>
          match pyIndex lines 2 with
          | .error e => .error e
          | .ok l2 =>
            match reMatchGroup "file:" l2 with
            | none => .error (.httpException NodeNotFoundError)
            | some f => .ok ⟨i, t, f⟩

/-- Embedding of `str(pathlib.Path(p).parent)` for POSIX paths, as used in
`Path(fn).parent` (line 169): empty and `.` components are dropped, the last
component is removed, and a path with at most one component has parent `/`
(absolute) or `.` (relative). -/
def pathParent (p : String) : String :=
  let isAbs := match p.data with
    | '/' :: _ => true
    | _ => false
  let comps := ((splitOnChar '/' p.data).map String.mk).filter (fun c => !(c == "" || c == "."))
  match comps.dropLast with
  | [] => if isAbs then "/" else "."
  | ps => (if isAbs then "/" else "") ++ String.intercalate "/" ps

/-- The `logging.error` message of `get_or_node_details` (line 174),
embedding the f-string with the raw output interpolated. -/
def gndLogMsg (output : String) : String :=
  "Unable to parse output from emacsclient: " ++ output

/-- Outcome of `get_or_node_details`: the returned value (or raised
exception) paired with the list of `logging.error` messages emitted.
`.ok none` is Python's implicit `None` return value. -/
structure GndResult where
  result : Except PyErr (Option NodeDetail)
  log : List String
deriving DecidableEq, Repr

/-- Embedding of `get_or_node_details`' parsing of the `ask_emacs` output
(lines 157–175): `title:(.+)` against `lines[0]`; on success `file:(.+)`
against `lines[1]`, and on success the HTML body is the newline-join of
`lines[2:]` passed through `rewrite_links` (the external collaborator from
`utils`, taken here as the parameter `rw`) with `Path(fn).parent`.  The
`else` branch (log + `HTTPException(404, "No node found")`) is attached
only to the `title:` match; a failing `file:` match falls off the end of
the function and returns `None`. -/
def get_or_node_details_body (rw : String → String → String) (output : String) : GndResult :=
  let lines := pySplitNl output
  match pyIndex lines 0 with
  | .error e => ⟨.error e, []⟩
  | .ok l0 =>
    match reMatchGroup "title:" l0 with
    | none => ⟨.error (.httpException NodeDetailsError), [gndLogMsg output]⟩
    | some t =>
      match pyIndex lines 1 with
      | .error e => ⟨.error e, []⟩
      | .ok l1 =>
        match reMatchGroup "file:" l1 with
        | none => ⟨.ok none, []⟩
        | some f =>
          let html := joinNl (lines.drop 2)
          ⟨.ok (some ⟨t, f, rw html (pathParent f)⟩), []⟩

/-- One step of strict UTF-8 decoding on a byte list: decodes the leading
scalar value, rejecting stray continuation bytes, truncated sequences,
overlong encodings, surrogate code points and values above 0x10FFFF, as
Python's strict `bytes.decode("utf-8")` does. -/
def utf8DecodeOne : List Nat → Option (Char × List Nat)
  | [] => none
  | b :: bs =>
    if b < 0x80 then some (Char.ofNat b, bs)
    else if b < 0xC2 then none
    else if b < 0xE0 then
      match bs with
      | b2 :: bs2 =>
        if 0x80 ≤ b2 ∧ b2 < 0xC0 then
          some (Char.ofNat ((b - 0xC0) * 0x40 + (b2 - 0x80)), bs2)
        else none
      | [] => none
    else if b < 0xF0 then
      match bs with
      | b2 :: b3 :: bs3 =>
        if 0x80 ≤ b2 ∧ b2 < 0xC0 ∧ 0x80 ≤ b3 ∧ b3 < 0xC0 then
          let cp := (b - 0xE0) * 0x1000 + (b2 - 0x80) * 0x40 + (b3 - 0x80)
          if 0x800 ≤ cp ∧ ¬ (0xD800 ≤ cp ∧ cp < 0xE000) then some (Char.ofNat cp, bs3)
          else none
        else none
      | _ => none
    else if b < 0xF5 then
      match bs with
      | b2 :: b3 :: b4 :: bs4 =>
        if 0x80 ≤ b2 ∧ b2 < 0xC0 ∧ 0x80 ≤ b3 ∧ b3 < 0xC0 ∧ 0x80 ≤ b4 ∧ b4 < 0xC0 then
          let cp := (b - 0xF0) * 0x40000 + (b2 - 0x80) * 0x1000 + (b3 - 0x80) * 0x40 + (b4 - 0x80)
          if 0x10000 ≤ cp ∧ cp ≤ 0x10FFFF then some (Char.ofNat cp, bs4)
          else none
        else none
      | _ => none
    else none

/-- Fuelled driver for `utf8Decode`; the fuel is initialised to the byte
count, which suffices because each step consumes at least one byte. -/
def utf8DecodeGo : Nat → List Nat → Option (List Char)
  | _, [] => some []
  | 0, _ :: _ => none
  | fuel + 1, l =>
    match utf8DecodeOne l with
    | none => none
    | some (c, rest) => (utf8DecodeGo fuel rest).map (fun cs => c :: cs)

/-- Strict UTF-8 decoding of a byte list, the embedding of Python
`bytes.decode("utf-8")` used by `tmp.read().decode("utf-8")` (line 80). -/
def utf8Decode (l : List Nat) : Option (List Char) :=
  utf8DecodeGo l.length l

/-- Embedding of the object returned by
`subprocess.run(cmd, capture_output=True, text=True)` (line 68). -/
structure SubprocResult where
  returncode : Int
  stdout : String
  stderr : String
deriving DecidableEq, Repr

/-- What one subprocess invocation is observed to do: the `subprocess.run`
result together with the bytes the evaluated snippet left in the freshly
created temporary file. -/
structure RunOutcome where
  ret : SubprocResult
  tmpBytes : List Nat
deriving DecidableEq, Repr

/-- The command line built by `ask_emacs` (lines 58–64): `emacsclient`,
the optional `-c --no-wait` pair when `create_frame` is set, then `--eval`
with the snippet wrapped in a `write-region` targeting the temp file. -/
def emacsclientCmd (elisp : String) (create_frame : Bool) (tmpName : String) : List String :=
  (if create_frame then ["emacsclient", "-c", "--no-wait"] else ["emacsclient"]) ++
    ["--eval", "(write-region " ++ elisp ++ " nil \"" ++ tmpName ++ "\")"]

/-- Outcome of one `ask_emacs` call: the returned string (or raised
exception) and whether the `NamedTemporaryFile` was deleted when the
`with` block was exited. -/
structure AskOutcome where
  result : Except PyErr String
  tmpDeleted : Bool
deriving DecidableEq, Repr

/-- Embedding of `ask_emacs` (lines 53–80): builds the command line, runs
the subprocess (`run` abstracts `subprocess.run` together with the file
system effect on the temp file), raises `HTTPException(404, ret.stderr)`
when the captured stderr is non-empty, and otherwise returns the bytes of
the temp file decoded as UTF-8.  Every exit leaves the `with
tempfile.NamedTemporaryFile()` block, so the temp file is deleted on all
paths.  The exit code of the subprocess is never consulted. -/
def ask_emacs (run : List String → RunOutcome) (tmpName : String) (elisp : String) (create_frame : Bool) : AskOutcome :=
  let cmd := emacsclientCmd elisp create_frame tmpName
  let out := run cmd
  if out.ret.stderr ≠ "" then
    ⟨.error (.httpException (EditorInvocationError out.ret.stderr)), true⟩
  else
    match utf8Decode out.tmpBytes with
    | some cs => ⟨.ok (String.mk cs), true⟩
    | none => ⟨.error .unicodeDecodeError, true⟩

/-- The fixed node-selection snippet `ELISP_SN` (lines 86–93), verbatim. -/
def ELISP_SN : String :=
  "\n(progn\n  (org-roam-node-find)\n  (let ((node (org-roam-node-at-point)))\n    (format \"id:%s\ntitle:%s\nfile:%s\" (org-roam-node-id node) (org-roam-node-title node) (org-roam-node-file node)))\n)"

/-- The parameterised detail-fetch template `ELISP_GND` (lines 138–149),
verbatim, with its `node_id` replacement field inside a quoted elisp
string literal. -/
def ELISP_GND : String :=
  "(let ((fnpos (org-roam-id-find \"{node_id}\")))\n  (when fnpos\n    (with-temp-buffer\n      (insert-file-contents (car fnpos))\n      (goto-char (cdr fnpos))\n      (let* ((node (org-roam-node-at-point))\n             (html (org-export-as \x27html (org-at-heading-p) nil t)))\n        (format \"title:%s\nfile:%s\n%s\" (org-roam-node-title node) (org-roam-node-file node) html)\n        ))))\n"

/-- Replaces every occurrence of the non-empty character sequence `sep`
in the template character list by `val`, scanning left to right; `fuel`
bounds the recursion and is initialised to the template length, which
suffices because each step consumes at least one character. -/
def replaceSub (sep val : List Char) : Nat → List Char → List Char
  | _, [] => []
  | 0, l => l
  | fuel + 1, c :: cs =>
    match stripLit sep (c :: cs) with
    | some rest => val ++ replaceSub sep val fuel rest
    | none => c :: replaceSub sep val fuel cs

/-- Embedding of Python `tmpl.format(field=value)` (line 155) restricted
to templates, like `ELISP_GND`, whose only use of braces is occurrences
of the one named replacement field: each such occurrence is replaced by
`value`, spliced in verbatim with no escaping or validation. -/
def pyFormatField (field value tmpl : String) : String :=
  String.mk (replaceSub ("\x7b" ++ field ++ "\x7d").data value.data tmpl.data.length tmpl.data)

/-- Embedding of `select_node` (lines 96–115): runs the fixed `ELISP_SN`
snippet through `ask_emacs` with `create_frame=True` and parses the
three-line output; exceptions raised by `ask_emacs` propagate. -/
def select_node (run : List String → RunOutcome) (tmpName : String) : Except PyErr NodeRef :=
  match (ask_emacs run tmpName ELISP_SN true).result with
  | .error e => .error e
  | .ok output => selectNodeBody output

/-- Embedding of `get_or_node_details` (lines 152–175): formats the node
id into `ELISP_GND`, runs the snippet through `ask_emacs` (no frame), and
parses the result; `rw` is the external `rewrite_links` collaborator from
`utils`, taken as a parameter. -/
def get_or_node_details (run : List String → RunOutcome) (tmpName : String) (rw : String → String → String) (or_node_id : String) : GndResult :=
  match (ask_emacs run tmpName (pyFormatField "node_id" or_node_id ELISP_GND) false).result with
  | .error e => ⟨.error e, []⟩
  | .ok output => get_or_node_details_body rw output

/-- Phase of one server thread with respect to the module-level `mutex`
(line 18) and the `with mutex:` block around `subprocess.run` (lines
67–68): before the block, inside it (the subprocess is in flight), or
after leaving it — normally or through an exception from the subprocess
call. -/
inductive AskPhase where
  | beforeLock
  | inCritical
  | afterOk
  | afterErr
deriving DecidableEq, Repr

/-- Global state of the interleaving model: every thread's phase plus
which thread, if any, currently holds the module-level `mutex`. -/
structure MutexSys where
  threads : Nat → AskPhase
  holder : Option Nat

/-- Interleaving semantics of the `with mutex:` block: a thread enters
the block (starting the subprocess) only when no thread holds the lock,
and leaving the block — whether `subprocess.run` returned or raised —
always releases the lock. -/
inductive MutexStep : MutexSys → MutexSys → Prop where
  | acquire (s : MutexSys) (i : Nat) :
      s.holder = none → s.threads i = .beforeLock →
      MutexStep s ⟨fun j => if j = i then .inCritical else s.threads j, some i⟩
  | finishOk (s : MutexSys) (i : Nat) :
      s.threads i = .inCritical →
      MutexStep s ⟨fun j => if j = i then .afterOk else s.threads j, none⟩
  | finishErr (s : MutexSys) (i : Nat) :
      s.threads i = .inCritical →
      MutexStep s ⟨fun j => if j = i then .afterErr else s.threads j, none⟩

/-- States reachable from the initial state, in which no thread has
entered the block and the lock is free. -/
inductive MutexReach : MutexSys → Prop where
  | init : MutexReach ⟨fun _ => .beforeLock, none⟩
  | step {s t : MutexSys} : MutexReach s → MutexStep s t → MutexReach t

/-- The state in which thread 0 has entered the `with mutex:` block from
the initial state and its subprocess is in flight. -/
def mutexS1 : MutexSys :=
  ⟨fun j => if j = 0 then AskPhase.inCritical else AskPhase.beforeLock, some 0⟩

/-- The part of `ELISP_GND` before the `node_id` replacement field; it
ends inside a quoted elisp string literal. -/
def ELISP_GND_PRE : String := "(let ((fnpos (org-roam-id-find \""

/-- The part of `ELISP_GND` after the `node_id` replacement field,
starting with the quote that closes the elisp string literal. -/
def ELISP_GND_POST : String :=
  "\")))\n  (when fnpos\n    (with-temp-buffer\n      (insert-file-contents (car fnpos))\n      (goto-char (cdr fnpos))\n      (let* ((node (org-roam-node-at-point))\n             (html (org-export-as \x27html (org-at-heading-p) nil t)))\n        (format \"title:%s\nfile:%s\n%s\" (org-roam-node-title node) (org-roam-node-file node) html)\n        ))))\n"

theorem stripLit_append (p r : List Char) : stripLit p (p ++ r) = some r := by
  induction p with
  | nil => rfl
  | cons c cs ih => simp [stripLit, ih]

theorem reMatchGroup_pre (pre grp : String) (h0 : grp ≠ "")
    (h1 : ∀ c ∈ grp.data, c ≠ '\n') :
    reMatchGroup pre (pre ++ grp) = some grp := by
  unfold reMatchGroup
  rw [String.data_append, stripLit_append]
  have htk : grp.data.takeWhile (fun c => decide (c ≠ '\n')) = grp.data := by
    rw [List.takeWhile_eq_self_iff]
    intro x hx
    simpa using h1 x hx
  simp only [htk]
  cases hgd : grp.data with
  | nil => exact absurd (String.ext hgd) h0
  | cons a l =>
    simp only [hgd, List.isEmpty_cons, Bool.false_eq_true, if_false]
    exact congrArg some (String.ext hgd.symm)

set_option maxRecDepth 8192 in
/-- Claim C9: the detail-fetch snippet is built by `str.format`
substituting the node id verbatim — with no escaping or validation —
into the quoted elisp string literal of the fixed `ELISP_GND` template,
so the generated snippet is exactly the template text around the literal
node id. -/
theorem gnd_snippet_splices_id_verbatim (or_node_id : String) :
    pyFormatField "node_id" or_node_id ELISP_GND =
      ELISP_GND_PRE ++ or_node_id ++ ELISP_GND_POST := rfl

theorem mutexInv {s : MutexSys} (h : MutexReach s) :
    ∀ i, s.threads i = AskPhase.inCritical → s.holder = some i := by
  induction h with
  | init => intro i hi; exact absurd hi (by simp)
  | step _ hs ih =>
    cases hs with
    | acquire i h0 h1 =>
      intro j hj
      by_cases hji : j = i
      · simp [hji]
      · simp only [hji, if_false] at hj
        have := ih j hj
        rw [h0] at this
        cases this
    | finishOk i h1 =>
      intro j hj
      by_cases hji : j = i
      · rw [hji] at hj; simp at hj
      · simp only [hji, if_false] at hj
        have h2 := ih j hj
        have h3 := ih i h1
        rw [h2] at h3
        injection h3 with h4
        exact absurd h4 hji
    | finishErr i h1 =>
      intro j hj
      by_cases hji : j = i
      · rw [hji] at hj; simp at hj
      · simp only [hji, if_false] at hj
        have h2 := ih j hj
        have h3 := ih i h1
        rw [h2] at h3
        injection h3 with h4
        exact absurd h4 hji

/-- Claim C5: in every reachable state of the interleaving model of the
`with mutex:` block, at most one thread has a subprocess in flight; a
thread with a subprocess in flight holds the process-wide lock (so it was
acquired before the subprocess started); and every step that takes a
thread out of the critical section — normal completion or an exception
from `subprocess.run` — leaves the lock released. -/
theorem mutex_serializes_subprocess {s : MutexSys} (h : MutexReach s) :
    (∀ i j, s.threads i = AskPhase.inCritical → s.threads j = AskPhase.inCritical → i = j) ∧
    (∀ i, s.threads i = AskPhase.inCritical → s.holder = some i) ∧
    (∀ t u : MutexSys, ∀ i, MutexStep t u → t.threads i = AskPhase.inCritical →
      u.threads i ≠ AskPhase.inCritical → u.holder = none) := by
  refine ⟨?_, mutexInv h, ?_⟩
  · intro i j hi hj
    have h1 := mutexInv h i hi
    have h2 := mutexInv h j hj
    rw [h1] at h2
    injection h2
  · intro t u i hs hi hni
    cases hs with
    | acquire k hk0 hk1 =>
      by_cases hik : i = k
      · rw [hik] at hi; rw [hk1] at hi; cases hi
      · exact absurd (by simp only [hik, if_false]; exact hi) hni
    | finishOk k hk1 => rfl
    | finishErr k hk1 => rfl

theorem mutex_serializes_subprocess_witness : mutexS1.holder = some 0 :=
  (mutex_serializes_subprocess
    (MutexReach.step MutexReach.init (MutexStep.acquire _ 0 rfl rfl))).2.1 0 (by simp [mutexS1])

/-- Claim C1 (code-bug evidence): when line 0 matches `title:` but line 1
fails `file:`, `get_or_node_details` neither raises `NodeDetailsError`
nor logs — the `else` branch belongs only to the `title:` match, so the
function falls off its end and returns `None`; only a failing `title:`
line takes the log-and-raise path. -/
theorem gnd_file_line_failure_returns_none (rw : String → String → String) :
    get_or_node_details_body rw "title:T\nbad" = ⟨.ok none, []⟩ ∧
    get_or_node_details_body rw "bad\nfile:f" =
      ⟨.error (.httpException NodeDetailsError), [gndLogMsg "bad\nfile:f"]⟩ :=
  ⟨rfl, rfl⟩

/-- Claim C2 counterexample: for the single-line node-finder output
"id:a" — an output with fewer than three lines — `select_node` raises
`IndexError` from the `lines[1]` subscript, not `NodeNotFoundError`. -/
theorem selectNode_short_output_index_error :
    selectNodeBody "id:a" = .error .indexError ∧
    selectNodeBody "id:a" ≠ .error (.httpException NodeNotFoundError) := by
  decide

/-- Claim C2 (amended): `select_node` fails with `NodeNotFoundError`
whenever one of the three expected lines is present and fails its
anchored pattern — in particular for "oops\ntitle:t\nfile:f" — but when
every present line matches and the next expected line is absent (an
output with fewer than three lines), it raises `IndexError` instead. -/
theorem selectNode_not_found_cases (out : String) :
    (∀ l0 rest, pySplitNl out = l0 :: rest → reMatchGroup "id:" l0 = none →
      selectNodeBody out = .error (.httpException NodeNotFoundError)) ∧
    (∀ l0 l1 rest, pySplitNl out = l0 :: l1 :: rest → reMatchGroup "title:" l1 = none →
      selectNodeBody out = .error (.httpException NodeNotFoundError)) ∧
    (∀ l0 l1 l2 rest, pySplitNl out = l0 :: l1 :: l2 :: rest → reMatchGroup "file:" l2 = none →
      selectNodeBody out = .error (.httpException NodeNotFoundError)) ∧
    (∀ l0 g0, pySplitNl out = [l0] → reMatchGroup "id:" l0 = some g0 →
      selectNodeBody out = .error .indexError) ∧
    (∀ l0 l1 g0 g1, pySplitNl out = [l0, l1] → reMatchGroup "id:" l0 = some g0 →
      reMatchGroup "title:" l1 = some g1 →
      selectNodeBody out = .error .indexError) ∧
    selectNodeBody "oops\ntitle:t\nfile:f" = .error (.httpException NodeNotFoundError) := by
  refine ⟨?_, ?_, ?_, ?_, ?_, by decide⟩
  · intro l0 rest hs h0
    unfold selectNodeBody
    rw [hs]
    simp only [pyIndex, List.get?, h0]
  · intro l0 l1 rest hs h1
    unfold selectNodeBody
    rw [hs]
    simp only [pyIndex, List.get?]
    cases h0 : reMatchGroup "id:" l0 with
    | none => simp only [h0]
    | some g0 => simp only [h0, h1]
  · intro l0 l1 l2 rest hs h2
    unfold selectNodeBody
    rw [hs]
    simp only [pyIndex, List.get?]
    cases h0 : reMatchGroup "id:" l0 with
    | none => simp only [h0]
    | some g0 =>
      cases h1 : reMatchGroup "title:" l1 with
      | none => simp only [h0, h1]
      | some g1 => simp only [h0, h1, h2]
  · intro l0 g0 hs h0
    unfold selectNodeBody
    rw [hs]
    simp only [pyIndex, List.get?, h0]
  · intro l0 l1 g0 g1 hs h0 h1
    unfold selectNodeBody
    rw [hs]
    simp only [pyIndex, List.get?, h0, h1]

theorem selectNode_not_found_cases_witness :
    selectNodeBody "id:a" = .error .indexError ∧
    selectNodeBody "oops\ntitle:t\nfile:f" = .error (.httpException NodeNotFoundError) :=
  ⟨(selectNode_not_found_cases "id:a").2.2.2.1 "id:a" "a" (by decide) (by decide),
   (selectNode_not_found_cases "oops\ntitle:t\nfile:f").2.2.2.2.2⟩

/-- Claim C6: when the three anchored prefix patterns match lines 0, 1
and 2 in order — any further lines being irrelevant — `select_node`
returns the three captured suffixes as id, title and file; in particular
for "id:abc\ntitle:My Note\nfile:/x/y.org" it returns the record with id
"abc", title "My Note", file "/x/y.org". -/
theorem selectNode_success (out i t f : String) (rest : List String)
    (hs : pySplitNl out = ("id:" ++ i) :: ("title:" ++ t) :: ("file:" ++ f) :: rest)
    (hi0 : i ≠ "") (hi1 : ∀ c ∈ i.data, c ≠ '\n')
    (ht0 : t ≠ "") (ht1 : ∀ c ∈ t.data, c ≠ '\n')
    (hf0 : f ≠ "") (hf1 : ∀ c ∈ f.data, c ≠ '\n') :
    selectNodeBody out = .ok ⟨i, t, f⟩ ∧
    selectNodeBody "id:abc\ntitle:My Note\nfile:/x/y.org" =
      .ok ⟨"abc", "My Note", "/x/y.org"⟩ := by
  constructor
  · unfold selectNodeBody
    rw [hs]
    simp only [pyIndex, List.get?, reMatchGroup_pre "id:" i hi0 hi1,
      reMatchGroup_pre "title:" t ht0 ht1, reMatchGroup_pre "file:" f hf0 hf1]
  · decide

theorem selectNode_success_witness :
    selectNodeBody "id:x\ntitle:y\nfile:z\nextra" = .ok ⟨"x", "y", "z"⟩ :=
  (selectNode_success "id:x\ntitle:y\nfile:z\nextra" "x" "y" "z" ["extra"] (by decide)
    (by decide) (by decide) (by decide) (by decide) (by decide) (by decide)).1

/-- Claim C7: when lines 0 and 1 match `title:` and `file:`, the HTML
body handed to the link rewriter is the newline-join of all lines from
index 2 onward, preserving embedded newlines; in particular the output
"title:T\nfile:/a/b.org\n<div>line1</div>\n<div>line2</div>" parses to
title "T", file "/a/b.org" and HTML-before-rewrite
"<div>line1</div>\n<div>line2</div>". -/
theorem gnd_joins_html_lines (rw : String → String → String) (out t f : String)
    (rest : List String)
    (hs : pySplitNl out = ("title:" ++ t) :: ("file:" ++ f) :: rest)
    (ht0 : t ≠ "") (ht1 : ∀ c ∈ t.data, c ≠ '\n')
    (hf0 : f ≠ "") (hf1 : ∀ c ∈ f.data, c ≠ '\n') :
    get_or_node_details_body rw out =
      ⟨.ok (some ⟨t, f, rw (joinNl rest) (pathParent f)⟩), []⟩ ∧
    get_or_node_details_body (fun h _ => h)
        "title:T\nfile:/a/b.org\n<div>line1</div>\n<div>line2</div>" =
      ⟨.ok (some ⟨"T", "/a/b.org", "<div>line1</div>\n<div>line2</div>"⟩), []⟩ := by
  constructor
  · unfold get_or_node_details_body
    rw [hs]
    simp only [pyIndex, List.get?, reMatchGroup_pre "title:" t ht0 ht1,
      reMatchGroup_pre "file:" f hf0 hf1, List.drop_succ_cons, List.drop_zero]
  · decide

theorem gnd_joins_html_lines_witness :
    get_or_node_details_body (fun h _ => h) "title:T\nfile:/a/b.org\nH1\nH2" =
      ⟨.ok (some ⟨"T", "/a/b.org", joinNl ["H1", "H2"]⟩), []⟩ :=
  (gnd_joins_html_lines (fun h _ => h) "title:T\nfile:/a/b.org\nH1\nH2" "T" "/a/b.org"
    ["H1", "H2"] (by decide) (by decide) (by decide) (by decide) (by decide)).1

/-- Claim C8: on every successful `get_or_node_details` call, the link
rewriter is invoked with the reconstructed HTML and the parent directory
of the parsed file path — not the file path itself — and its output is
returned unchanged as the html field of the result. -/
theorem gnd_calls_rewriter_with_parent (rw : String → String → String) (out : String)
    (d : NodeDetail)
    (h : (get_or_node_details_body rw out).result = .ok (some d)) :
    d.html = rw (joinNl ((pySplitNl out).drop 2)) (pathParent d.file) := by
  simp only [get_or_node_details_body] at h
  split at h
  · simp at h
  · split at h
    · simp at h
    · split at h
      · simp at h
      · split at h
        · simp at h
        · simp only [Except.ok.injEq, Option.some.injEq] at h
          subst h
          rfl

theorem gnd_calls_rewriter_with_parent_witness :
    (NodeDetail.mk "T" "/a/b.org" "/a|H").html =
      (fun h p => p ++ "|" ++ h) (joinNl ((pySplitNl "title:T\nfile:/a/b.org\nH").drop 2))
        (pathParent (NodeDetail.mk "T" "/a/b.org" "/a|H").file) :=
  gnd_calls_rewriter_with_parent (fun h p => p ++ "|" ++ h) "title:T\nfile:/a/b.org\nH"
    ⟨"T", "/a/b.org", "/a|H"⟩ (by decide)

/-- Claim C3: when the subprocess writes empty stderr and the bytes it
left in the temporary file decode as UTF-8, `ask_emacs` returns exactly
those decoded bytes (read back from the temp file, not from stdout), and
the temporary file is deleted on scope exit on every path, success or
failure. -/
theorem ask_emacs_returns_decoded_tmpfile (run : List String → RunOutcome)
    (tmpName elisp : String) (cf : Bool) (cs : List Char)
    (hstderr : (run (emacsclientCmd elisp cf tmpName)).ret.stderr = "")
    (hdec : utf8Decode (run (emacsclientCmd elisp cf tmpName)).tmpBytes = some cs) :
    ask_emacs run tmpName elisp cf = ⟨.ok (String.mk cs), true⟩ ∧
    ∀ (run2 : List String → RunOutcome) (tn2 e2 : String) (c2 : Bool),
      (ask_emacs run2 tn2 e2 c2).tmpDeleted = true := by
  constructor
  · simp [ask_emacs, hstderr, hdec]
  · intro run2 tn2 e2 c2
    simp only [ask_emacs]
    split
    · rfl
    · split <;> rfl

theorem ask_emacs_returns_decoded_tmpfile_witness :
    ask_emacs (fun _ => ⟨⟨0, "ignored stdout", ""⟩, [104, 105]⟩) "tmp" "(progn)" false =
      ⟨.ok "hi", true⟩ :=
  (ask_emacs_returns_decoded_tmpfile (fun _ => ⟨⟨0, "ignored stdout", ""⟩, [104, 105]⟩)
    "tmp" "(progn)" false ['h', 'i'] rfl (by decide)).1

/-- Claim C4: `ask_emacs` raises `HTTPException(404, stderr)` — the
spec's `EditorInvocationError`, carrying the captured stderr text as
detail — exactly when the captured stderr is non-empty; the subprocess
exit code is never consulted (two runs differing only in the exit code
produce identical outcomes); and the temp file is cleaned up on the
failure path as well. -/
theorem ask_emacs_stderr_iff_failure (run : List String → RunOutcome)
    (tmpName elisp : String) (cf : Bool) :
    ((run (emacsclientCmd elisp cf tmpName)).ret.stderr ≠ "" →
      (ask_emacs run tmpName elisp cf).result =
        .error (.httpException
          (EditorInvocationError (run (emacsclientCmd elisp cf tmpName)).ret.stderr))) ∧
    ((∃ e, (ask_emacs run tmpName elisp cf).result = .error (.httpException e)) →
      (run (emacsclientCmd elisp cf tmpName)).ret.stderr ≠ "") ∧
    (ask_emacs run tmpName elisp cf).tmpDeleted = true ∧
    (∀ run2 : List String → RunOutcome,
      (∀ cmd, (run2 cmd).ret.stdout = (run cmd).ret.stdout ∧
        (run2 cmd).ret.stderr = (run cmd).ret.stderr ∧
        (run2 cmd).tmpBytes = (run cmd).tmpBytes) →
      ask_emacs run2 tmpName elisp cf = ask_emacs run tmpName elisp cf) := by
  refine ⟨?_, ?_, ?_, ?_⟩
  · intro h
    simp [ask_emacs, h]
  · intro hex h0
    obtain ⟨e, he⟩ := hex
    simp only [ask_emacs, h0, ne_eq, not_true_eq_false, if_false, ite_false] at he
    cases hd : utf8Decode (run (emacsclientCmd elisp cf tmpName)).tmpBytes <;>
      simp [hd] at he
  · simp only [ask_emacs]
    split
    · rfl
    · split <;> rfl
  · intro run2 hagree
    obtain ⟨h1, h2, h3⟩ := hagree (emacsclientCmd elisp cf tmpName)
    simp [ask_emacs, h2, h3]

theorem ask_emacs_stderr_iff_failure_witness :
    (ask_emacs (fun _ => ⟨⟨7, "out", "boom"⟩, []⟩) "tmp" "(progn)" false).result =
      .error (.httpException (EditorInvocationError "boom")) :=
  (ask_emacs_stderr_iff_failure (fun _ => ⟨⟨7, "out", "boom"⟩, []⟩) "tmp" "(progn)"
    false).1 (by decide)

/-- Claim C10: the `(.+)` in each prefix pattern requires at least one
character after the colon, so a line that is exactly the bare prefix
fails to match: `select_node` takes its not-found path when any expected
line is exactly `id:`, `title:` or `file:`, and `get_or_node_details`
takes its log-and-raise path when line 0 is exactly `title:`. -/
theorem bare_prefix_line_fails (rw : String → String → String) (out : String) :
    (∀ rest, pySplitNl out = "id:" :: rest →
      selectNodeBody out = .error (.httpException NodeNotFoundError)) ∧
    (∀ l0 rest, pySplitNl out = l0 :: "title:" :: rest →
      selectNodeBody out = .error (.httpException NodeNotFoundError)) ∧
    (∀ l0 l1 rest, pySplitNl out = l0 :: l1 :: "file:" :: rest →
      selectNodeBody out = .error (.httpException NodeNotFoundError)) ∧
    (∀ rest, pySplitNl out = "title:" :: rest →
      get_or_node_details_body rw out =
        ⟨.error (.httpException NodeDetailsError), [gndLogMsg out]⟩) := by
  refine ⟨?_, ?_, ?_, ?_⟩
  · intro rest hs
    unfold selectNodeBody
    rw [hs]
    rfl
  · intro l0 rest hs
    unfold selectNodeBody
    rw [hs]
    simp only [pyIndex, List.get?]
    cases h0 : reMatchGroup "id:" l0 with
    | none => simp only [h0]
    | some g0 => simp only [h0]; rfl
  · intro l0 l1 rest hs
    unfold selectNodeBody
    rw [hs]
    simp only [pyIndex, List.get?]
    cases h0 : reMatchGroup "id:" l0 with
    | none => simp only [h0]
    | some g0 =>
      cases h1 : reMatchGroup "title:" l1 with
      | none => simp only [h0, h1]
      | some g1 => simp only [h0, h1]; rfl
  · intro rest hs
    unfold get_or_node_details_body
    rw [hs]
    rfl

theorem bare_prefix_line_fails_witness :
    selectNodeBody "id:\nx" = .error (.httpException NodeNotFoundError) ∧
    get_or_node_details_body (fun h _ => h) "title:" =
      ⟨.error (.httpException NodeDetailsError), [gndLogMsg "title:"]⟩ :=
  ⟨(bare_prefix_line_fails (fun h _ => h) "id:\nx").1 ["x"] (by decide),
   (bare_prefix_line_fails (fun h _ => h) "title:").2.2.2 [] (by decide)⟩
